import Mathlib

/-!
Verification of the configuration loader in src/config_loader.py.

The program is a three-stage pipeline: parse a JSON file into a flat
mapping, optionally override values from environment variables, then
validate the mapping against a fixed four-field schema (pydantic model
ConfigSchema) and return the typed result.

The embedding below models the Python code shallowly:
  - JSON values are the inductive JsonValue; a parsed top-level object is
    an association list of string keys and values (Python dicts keep
    insertion order and, coming from json.load, have unique keys).
  - Python exceptions become the inductive PyErr; fallible functions
    return Except PyErr.
  - The process environment is a function from variable names to
    Option String, mirroring os.getenv.
  - File system access is abstracted by FileReadResult: the outcome of
    opening and JSON-parsing the file at the given path (not found,
    syntactically invalid, or a parsed value).
-/

/-- A JSON value as produced by json.load. Numbers are modelled as
integers, which covers every numeric literal the claims mention. -/
inductive JsonValue where
  | null
  | bool (b : Bool)
  | num (n : Int)
  | str (s : String)
  | arr (elems : List JsonValue)
  | obj (fields : List (String × JsonValue))
  deriving Repr

/-- Python truthiness of a JSON value: None, False, 0, the empty string,
the empty list and the empty dict are falsy, everything else is truthy.
This is the test performed by the line `if not config` in
_load_config_from_file. -/
def jsonFalsy : JsonValue → Bool
  | .null => true
  | .bool b => !b
  | .num n => n == 0
  | .str s => s.isEmpty
  | .arr elems => elems.isEmpty
  | .obj fields => fields.isEmpty

/-- Python str.lower on the ASCII strings this program handles: map each
character to its lower-case form. Written via List.map so that it
reduces inside the kernel. -/
def pyLower (s : String) : String := String.mk (s.data.map Char.toLower)

/-- The kind of a single per-field validation problem, as reported by the
validation library: the field is absent, or present with an
uncoercible value. -/
inductive FieldErrorKind where
  | missing
  | wrongType
  deriving Repr, DecidableEq

/-- The Python exception kinds the loader can raise or handle:
FileNotFoundError and json.JSONDecodeError propagate from the file
loader; ValueError carries the message load_config raises it with;
validationError is pydantic.ValidationError with its list of per-field
problems; attributeError and typeError model the uncaught exceptions a
truthy non-object top-level value would cause (config.keys on a
non-dict, keyword unpacking of a non-mapping). -/
inductive PyErr where
  | fileNotFoundError
  | jsonDecodeError
  | valueError (msg : String)
  | validationError (entries : List (String × FieldErrorKind))
  | attributeError
  | typeError
  deriving Repr, DecidableEq

/-- True exactly on the pydantic ValidationError exception kind. -/
def PyErr.isValidationError : PyErr → Bool
  | .validationError _ => true
  | _ => false

/-- True when the computation failed with an error satisfying p. -/
def failedWith {α : Type} (p : PyErr → Bool) : Except PyErr α → Bool
  | .error e => p e
  | .ok _ => false

/-- The pydantic model of src/config_loader.py lines 12-17: four required
fields with their target types. -/
structure ConfigSchema where
  app_name : String
  environment : String
  debug : Bool
  db_url : String
  deriving Repr, DecidableEq

/-- First-match lookup of a key in a parsed JSON object, mirroring
Python dict indexing (keys coming from json.load are unique, so
first match and last match agree). -/
def lookupField (fields : List (String × JsonValue)) (k : String) : Option JsonValue :=
  match fields with
  | [] => none
  | (k', v) :: rest => if k' = k then some v else lookupField rest k

/-- Modelled from the spec: coercion of a JSON value to a string field of
the pydantic schema. The library code is not part of src/; the spec
fixes the policy that app_name, environment and db_url must be
representable as non-null strings, so exactly string values are
accepted. -/
def coerce_str : JsonValue → Option String
  | .str s => some s
  | _ => none

/-- Modelled from the spec: coercion of a JSON value to the boolean debug
field. The library code is not part of src/; the spec fixes the
recommended policy of accepting native booleans plus the
case-insensitive string forms of true and false, rejecting anything
else. -/
def coerce_bool : JsonValue → Option Bool
  | .bool b => some b
  | .str s =>
      if pyLower s = "true" then some true
      else if pyLower s = "false" then some false
      else none
  | _ => none

/-- The error entries contributed by one field check: one entry when the
check failed, none when it succeeded. -/
def errEntries {α : Type} : Except (String × FieldErrorKind) α → List (String × FieldErrorKind)
  | .error e => [e]
  | .ok _ => []

/-- Check one required field of the schema: absent keys give a missing
entry, present keys whose value the coercion rejects give a wrong-type
entry. -/
def validateField {α : Type} (fields : List (String × JsonValue)) (k : String)
    (coe : JsonValue → Option α) : Except (String × FieldErrorKind) α :=
  match lookupField fields k with
  | none => .error (k, .missing)
  | some v =>
      match coe v with
      | none => .error (k, .wrongType)
      | some a => .ok a

/-- Modelled from the spec: the validation performed by the call
ConfigSchema(**config) at src/config_loader.py line 46. The pydantic
library code is not part of src/; per the spec, validation checks
presence and type of the four required fields, collects one error
entry per offending field (in field declaration order), ignores
unknown extra keys, and on success returns the typed record. -/
def ConfigSchema.validate (fields : List (String × JsonValue)) :
    Except (List (String × FieldErrorKind)) ConfigSchema :=
  let ra := validateField fields "app_name" coerce_str
  let re := validateField fields "environment" coerce_str
  let rd := validateField fields "debug" coerce_bool
  let ru := validateField fields "db_url" coerce_str
  match ra, re, rd, ru with
  | .ok a, .ok e, .ok d, .ok u => .ok ⟨a, e, d, u⟩
  | _, _, _, _ => .error (errEntries ra ++ errEntries re ++ errEntries rd ++ errEntries ru)

/-- The process environment variable table, as read by os.getenv. -/
def Env : Type := String → Option String

/-- Python str.upper on the ASCII keys this program handles: map each
character to its upper-case form. Written via List.map so that it
reduces inside the kernel. -/
def pyUpper (s : String) : String := String.mk (s.data.map Char.toUpper)

/-- _apply_environment_overrides (src/config_loader.py lines 81-97): for
every key of the mapping, if an environment variable named by the
uppercased key is set, replace the value with that variable, always a
plain string; otherwise keep the entry. The Python code mutates the
dict in place while iterating its keys, which on an ordered mapping
with unique keys is this entrywise map. -/
def apply_environment_overrides (env : Env) (config : List (String × JsonValue)) :
    List (String × JsonValue) :=
  config.map fun p =>
    match env (pyUpper p.1) with
    | some s => (p.1, .str s)
    | none => p

/-- The outcome of opening the file at the given path and parsing it as
JSON: the path does not resolve to a readable file, the content is not
valid JSON, or the parsed value. -/
inductive FileReadResult where
  | notFound
  | badJson
  | content (v : JsonValue)
  deriving Repr

/-- _load_config_from_file (src/config_loader.py lines 51-79): propagate
FileNotFoundError and json.JSONDecodeError; return None when the
parsed value is falsy (the line `if not config`), the parsed value
otherwise. -/
def load_config_from_file (fr : FileReadResult) : Except PyErr (Option JsonValue) :=
  match fr with
  | .notFound => .error .fileNotFoundError
  | .badJson => .error .jsonDecodeError
  | .content v => .ok (if jsonFalsy v then none else some v)

/-- load_config (src/config_loader.py lines 19-49): load the file, raise
ValueError when the loader returned None, apply environment overrides
when requested (config.keys on a non-dict raises AttributeError),
validate, and convert a pydantic ValidationError into the generic
ValueError with message Invalid configuration data. A truthy non-dict
reaching ConfigSchema(**config) raises TypeError, which the
except clause for ValidationError does not catch. -/
def load_config (fr : FileReadResult) (env : Env) (env_override : Bool) :
    Except PyErr ConfigSchema :=
  match load_config_from_file fr with
  | .error e => .error e
  | .ok none => .error (.valueError "Config is None. Please check the file content.")
  | .ok (some v) =>
      let step : Except PyErr JsonValue :=
        if env_override then
          match v with
          | .obj fields => .ok (.obj (apply_environment_overrides env fields))
          | _ => .error .attributeError
        else .ok v
      match step with
      | .error e => .error e
      | .ok (.obj fields) =>
          match ConfigSchema.validate fields with
          | .ok c => .ok c
          | .error _ => .error (.valueError "Invalid configuration data")
      | .ok _ => .error .typeError


/-! helper lemmas -/

theorem pyUpper_app_name : pyUpper "app_name" = "APP_NAME" := rfl

theorem pyUpper_environment : pyUpper "environment" = "ENVIRONMENT" := rfl

theorem pyUpper_debug : pyUpper "debug" = "DEBUG" := rfl

theorem pyUpper_db_url : pyUpper "db_url" = "DB_URL" := rfl

theorem apply_environment_overrides_id (env : Env) :
    ∀ config : List (String × JsonValue),
      (∀ p ∈ config, env (pyUpper p.1) = none) →
      apply_environment_overrides env config = config
  | [], _ => rfl
  | p :: rest, h => by
      have hp : env (pyUpper p.1) = none := h p (by simp)
      have ih := apply_environment_overrides_id env rest (fun q hq => h q (by simp [hq]))
      simp only [apply_environment_overrides, List.map_cons] at ih ⊢
      rw [hp]
      simp only [ih]

theorem apply_environment_overrides_keys (env : Env) (config : List (String × JsonValue)) :
    (apply_environment_overrides env config).map Prod.fst = config.map Prod.fst := by
  induction config with
  | nil => rfl
  | cons p rest ih =>
      simp only [apply_environment_overrides, List.map_cons] at ih ⊢
      cases h : env (pyUpper p.1) <;> simp [h, ih]

theorem lookupField_overrides_none (env : Env) (config : List (String × JsonValue))
    (k : String) (hk : env (pyUpper k) = none) :
    lookupField (apply_environment_overrides env config) k = lookupField config k := by
  induction config with
  | nil => rfl
  | cons p rest ih =>
      obtain ⟨k', v⟩ := p
      by_cases hkk : k' = k
      · subst hkk
        simp [apply_environment_overrides, lookupField, hk]
      · cases h : env (pyUpper k') <;>
          simp [apply_environment_overrides, lookupField, h, hkk] <;>
          simpa [apply_environment_overrides] using ih

theorem lookupField_overrides_some (env : Env) (config : List (String × JsonValue))
    (k s : String) (hs : env (pyUpper k) = some s) (hk : k ∈ config.map Prod.fst) :
    lookupField (apply_environment_overrides env config) k = some (.str s) := by
  induction config with
  | nil => simp at hk
  | cons p rest ih =>
      obtain ⟨k', v⟩ := p
      by_cases hkk : k' = k
      · subst hkk
        simp [apply_environment_overrides, lookupField, hs]
      · have hk' : k ∈ rest.map Prod.fst := by
          simp at hk
          rcases hk with h | h
          · exact absurd h.symm hkk
          · simpa using h
        cases h : env (pyUpper k') <;>
          simp [apply_environment_overrides, lookupField, h, hkk] <;>
          simpa [apply_environment_overrides] using ih hk'

/-- C5: if the environment variable named by the uppercased key of a
present entry is set, even to the empty string, the override step maps
that key to the plain string value of the variable. -/
theorem env_override_replaces_value_C5 (env : Env) (config : List (String × JsonValue))
    (k s : String) (hs : env (pyUpper k) = some s) (hk : k ∈ config.map Prod.fst) :
    lookupField (apply_environment_overrides env config) k = some (.str s) :=
  lookupField_overrides_some env config k s hs hk

theorem env_override_replaces_value_C5_witness :
    (fun n => if n = "DEBUG" then some "" else none : Env) (pyUpper "debug") = some ""
    ∧ "debug" ∈ ([("debug", JsonValue.num 5)].map Prod.fst)
    ∧ lookupField (apply_environment_overrides
        (fun n => if n = "DEBUG" then some "" else none) [("debug", JsonValue.num 5)]) "debug"
      = some (.str "") :=
  ⟨rfl, by simp,
   env_override_replaces_value_C5 (fun n => if n = "DEBUG" then some "" else none)
     [("debug", JsonValue.num 5)] "debug" "" rfl (by simp)⟩

/-- C6: the override step preserves the key list of its input exactly,
and every key whose uppercased environment variable is unset keeps its
value. -/
theorem env_override_frame_C6 (env : Env) (config : List (String × JsonValue)) :
    (apply_environment_overrides env config).map Prod.fst = config.map Prod.fst
    ∧ ∀ k : String, env (pyUpper k) = none →
        lookupField (apply_environment_overrides env config) k = lookupField config k :=
  ⟨apply_environment_overrides_keys env config,
   fun k hk => lookupField_overrides_none env config k hk⟩

theorem env_override_frame_C6_witness :
    (apply_environment_overrides (fun _ => none) [("app_name", JsonValue.str "svc")]).map Prod.fst
        = [("app_name", JsonValue.str "svc")].map Prod.fst
    ∧ lookupField (apply_environment_overrides (fun _ => none)
          [("app_name", JsonValue.str "svc")]) "debug"
        = lookupField [("app_name", JsonValue.str "svc")] "debug" :=
  ⟨(env_override_frame_C6 (fun _ => none) [("app_name", JsonValue.str "svc")]).1,
   (env_override_frame_C6 (fun _ => none) [("app_name", JsonValue.str "svc")]).2 "debug" rfl⟩

/-- C9: applying the environment override twice with the same
environment gives the same mapping as applying it once. -/
theorem env_override_idempotent_C9 (env : Env) (config : List (String × JsonValue)) :
    apply_environment_overrides env (apply_environment_overrides env config)
      = apply_environment_overrides env config := by
  induction config with
  | nil => rfl
  | cons p rest ih =>
      simp only [apply_environment_overrides, List.map_cons] at ih ⊢
      cases h : env (pyUpper p.1) <;> simp [h, ih]

/-- C4: a file parsing to the empty object makes load_config fail, for
either override mode, with the ValueError raised by the null-config
guard, an error kind distinct from file-not-found and from
malformed-JSON, and never an ok result. -/
theorem empty_object_rejected_C4 (env : Env) (eo : Bool) :
    load_config (.content (.obj [])) env eo
      = .error (.valueError "Config is None. Please check the file content.")
    ∧ (PyErr.valueError "Config is None. Please check the file content."
        ≠ PyErr.fileNotFoundError)
    ∧ (PyErr.valueError "Config is None. Please check the file content."
        ≠ PyErr.jsonDecodeError) := by
  cases eo <;> exact ⟨rfl, by simp, by simp⟩

/-- C10: every falsy top-level JSON value (null, false, 0, the empty
string, the empty array, the empty object) makes the file loader
return None, and load_config then fails with the same generic
ValueError for all of them, in either override mode. -/
theorem falsy_values_uniform_C10 (env : Env) (eo : Bool) :
    (load_config_from_file (.content .null) = .ok none
      ∧ load_config (.content .null) env eo
        = .error (.valueError "Config is None. Please check the file content."))
    ∧ (load_config_from_file (.content (.bool false)) = .ok none
      ∧ load_config (.content (.bool false)) env eo
        = .error (.valueError "Config is None. Please check the file content."))
    ∧ (load_config_from_file (.content (.num 0)) = .ok none
      ∧ load_config (.content (.num 0)) env eo
        = .error (.valueError "Config is None. Please check the file content."))
    ∧ (load_config_from_file (.content (.str "")) = .ok none
      ∧ load_config (.content (.str "")) env eo
        = .error (.valueError "Config is None. Please check the file content."))
    ∧ (load_config_from_file (.content (.arr [])) = .ok none
      ∧ load_config (.content (.arr [])) env eo
        = .error (.valueError "Config is None. Please check the file content."))
    ∧ (load_config_from_file (.content (.obj [])) = .ok none
      ∧ load_config (.content (.obj [])) env eo
        = .error (.valueError "Config is None. Please check the file content.")) := by
  cases eo <;>
    exact ⟨⟨rfl, rfl⟩, ⟨rfl, rfl⟩, ⟨rfl, rfl⟩, ⟨rfl, rfl⟩, ⟨rfl, rfl⟩, ⟨rfl, rfl⟩⟩

/-- C8: the debug coercion accepts native booleans unchanged and maps
the strings true and false to the corresponding booleans, and the full
validator does the same on complete configurations. -/
theorem debug_coercion_C8 (b : Bool) :
    coerce_bool (.bool b) = some b
    ∧ coerce_bool (.str "true") = some true
    ∧ coerce_bool (.str "false") = some false
    ∧ ConfigSchema.validate [("app_name", .str "a"), ("environment", .str "e"),
        ("debug", .str "true"), ("db_url", .str "u")] = .ok ⟨"a", "e", true, "u"⟩
    ∧ ConfigSchema.validate [("app_name", .str "a"), ("environment", .str "e"),
        ("debug", .str "false"), ("db_url", .str "u")] = .ok ⟨"a", "e", false, "u"⟩ := by
  refine ⟨?_, rfl, rfl, rfl, rfl⟩
  cases b <;> rfl

/-- C3 as stated is false: on a file holding only the app_name field,
load_config does not fail with a pydantic ValidationError naming the
missing fields; it fails with the generic ValueError carrying the
message Invalid configuration data. -/
theorem load_config_missing_fields_C3_cex :
    load_config (.content (.obj [("app_name", JsonValue.str "x")])) (fun _ => none) true
      = .error (.valueError "Invalid configuration data")
    ∧ failedWith PyErr.isValidationError
        (load_config (.content (.obj [("app_name", JsonValue.str "x")])) (fun _ => none) true)
      = false :=
  ⟨rfl, rfl⟩

/-- C3 amended: on a file holding only the app_name field, load_config
fails for every environment and either override mode, but with the
generic ValueError; the ValidationError produced inside the validator,
which load_config catches and discards, is the one naming the three
missing fields environment, debug and db_url with one entry each. -/
theorem load_config_missing_fields_C3 (env : Env) (eo : Bool) :
    load_config (.content (.obj [("app_name", JsonValue.str "x")])) env eo
      = .error (.valueError "Invalid configuration data")
    ∧ ConfigSchema.validate [("app_name", JsonValue.str "x")]
      = .error [("environment", .missing), ("debug", .missing), ("db_url", .missing)] := by
  refine ⟨?_, rfl⟩
  cases eo
  · rfl
  · cases h : env "APP_NAME" <;>
      simp [load_config, load_config_from_file, jsonFalsy, apply_environment_overrides,
        pyUpper_app_name, h, ConfigSchema.validate, validateField, lookupField,
        coerce_str, errEntries]

/-- C1: a file whose object holds exactly the four required fields with
correctly typed values, under an environment that sets none of the
four override variables, loads successfully in either override mode
and returns exactly the input values. -/
theorem roundtrip_C1 (fields : List (String × JsonValue)) (env : Env) (eo : Bool)
    (an ev du : String) (b : Bool)
    (hkeys : (fields.map Prod.fst).Perm ["app_name", "environment", "debug", "db_url"])
    (ha : lookupField fields "app_name" = some (.str an))
    (he : lookupField fields "environment" = some (.str ev))
    (hd : lookupField fields "debug" = some (.bool b))
    (hu : lookupField fields "db_url" = some (.str du))
    (h1 : env "APP_NAME" = none) (h2 : env "ENVIRONMENT" = none)
    (h3 : env "DEBUG" = none) (h4 : env "DB_URL" = none) :
    load_config (.content (.obj fields)) env eo = .ok ⟨an, ev, b, du⟩ := by
  have hnone : ∀ p ∈ fields, env (pyUpper p.1) = none := by
    intro p hp
    have hmem : p.1 ∈ fields.map Prod.fst := List.mem_map_of_mem Prod.fst hp
    have hm4 : p.1 ∈ ["app_name", "environment", "debug", "db_url"] :=
      hkeys.mem_iff.mp hmem
    simp only [List.mem_cons, List.not_mem_nil, or_false] at hm4
    rcases hm4 with h | h | h | h <;> rw [h]
    · rw [pyUpper_app_name]; exact h1
    · rw [pyUpper_environment]; exact h2
    · rw [pyUpper_debug]; exact h3
    · rw [pyUpper_db_url]; exact h4
  have hid := apply_environment_overrides_id env fields hnone
  have hne : fields ≠ [] := by
    intro h
    rw [h] at ha
    simp [lookupField] at ha
  have hfalsy : jsonFalsy (.obj fields) = false := by
    cases fields with
    | nil => exact absurd rfl hne
    | cons q qs => rfl
  have hval : ConfigSchema.validate fields = .ok ⟨an, ev, b, du⟩ := by
    simp [ConfigSchema.validate, validateField, ha, he, hd, hu, coerce_str, coerce_bool]
  cases eo <;>
    simp [load_config, load_config_from_file, hfalsy, hid, hval]

theorem roundtrip_C1_witness :
    load_config (.content (.obj [("app_name", JsonValue.str "svc"),
        ("environment", JsonValue.str "prod"), ("debug", JsonValue.bool false),
        ("db_url", JsonValue.str "postgres://host/db")])) (fun _ => none) true
      = .ok ⟨"svc", "prod", false, "postgres://host/db"⟩ :=
  roundtrip_C1 [("app_name", JsonValue.str "svc"), ("environment", JsonValue.str "prod"),
      ("debug", JsonValue.bool false), ("db_url", JsonValue.str "postgres://host/db")]
    (fun _ => none) true "svc" "prod" "postgres://host/db" false
    (by simp) rfl rfl rfl rfl rfl rfl rfl rfl

/-- C2: with APP_NAME set to foo in the environment and no other
override variable of the schema set, a file mapping app_name to bar
with the other three fields valid yields app_name foo when overrides
are enabled and app_name bar when they are disabled. -/
theorem override_precedence_C2 (env : Env) (ev du : String) (b : Bool)
    (h1 : env "APP_NAME" = some "foo") (h2 : env "ENVIRONMENT" = none)
    (h3 : env "DEBUG" = none) (h4 : env "DB_URL" = none) :
    load_config (.content (.obj [("app_name", .str "bar"), ("environment", .str ev),
        ("debug", .bool b), ("db_url", .str du)])) env true = .ok ⟨"foo", ev, b, du⟩
    ∧ load_config (.content (.obj [("app_name", .str "bar"), ("environment", .str ev),
        ("debug", .bool b), ("db_url", .str du)])) env false = .ok ⟨"bar", ev, b, du⟩ := by
  constructor <;>
    simp [load_config, load_config_from_file, jsonFalsy, apply_environment_overrides,
      pyUpper_app_name, pyUpper_environment, pyUpper_debug, pyUpper_db_url,
      h1, h2, h3, h4, ConfigSchema.validate, validateField, lookupField,
      coerce_str, coerce_bool]

theorem override_precedence_C2_witness :
    load_config (.content (.obj [("app_name", .str "bar"), ("environment", .str "prod"),
        ("debug", .bool true), ("db_url", .str "db")]))
      (fun n => if n = "APP_NAME" then some "foo" else none) true
      = .ok ⟨"foo", "prod", true, "db"⟩
    ∧ load_config (.content (.obj [("app_name", .str "bar"), ("environment", .str "prod"),
        ("debug", .bool true), ("db_url", .str "db")]))
      (fun n => if n = "APP_NAME" then some "foo" else none) false
      = .ok ⟨"bar", "prod", true, "db"⟩ :=
  override_precedence_C2 (fun n => if n = "APP_NAME" then some "foo" else none)
    "prod" "db" true rfl rfl rfl rfl

/-- C7: a mapping that holds the four required fields with valid values
plus arbitrary further keys validates successfully, the result being
built from the four required fields alone; load_config likewise
succeeds on it, here shown with overrides disabled and, when no
override variable of any present key is set, with overrides enabled. -/
theorem extra_keys_ignored_C7 (fields : List (String × JsonValue)) (env : Env) (eo : Bool)
    (an ev du : String) (b : Bool)
    (ha : lookupField fields "app_name" = some (.str an))
    (he : lookupField fields "environment" = some (.str ev))
    (hd : lookupField fields "debug" = some (.bool b))
    (hu : lookupField fields "db_url" = some (.str du))
    (hnone : ∀ p ∈ fields, env (pyUpper p.1) = none) :
    ConfigSchema.validate fields = .ok ⟨an, ev, b, du⟩
    ∧ load_config (.content (.obj fields)) env eo = .ok ⟨an, ev, b, du⟩ := by
  have hval : ConfigSchema.validate fields = .ok ⟨an, ev, b, du⟩ := by
    simp [ConfigSchema.validate, validateField, ha, he, hd, hu, coerce_str, coerce_bool]
  have hid := apply_environment_overrides_id env fields hnone
  have hne : fields ≠ [] := by
    intro h
    rw [h] at ha
    simp [lookupField] at ha
  have hfalsy : jsonFalsy (.obj fields) = false := by
    cases fields with
    | nil => exact absurd rfl hne
    | cons q qs => rfl
  refine ⟨hval, ?_⟩
  cases eo <;>
    simp [load_config, load_config_from_file, hfalsy, hid, hval]

theorem extra_keys_ignored_C7_witness :
    ConfigSchema.validate [("app_name", JsonValue.str "svc"),
        ("environment", JsonValue.str "prod"), ("debug", JsonValue.bool true),
        ("db_url", JsonValue.str "db"), ("extra_key", JsonValue.num 7),
        ("another", JsonValue.null)]
      = .ok ⟨"svc", "prod", true, "db"⟩
    ∧ load_config (.content (.obj [("app_name", JsonValue.str "svc"),
        ("environment", JsonValue.str "prod"), ("debug", JsonValue.bool true),
        ("db_url", JsonValue.str "db"), ("extra_key", JsonValue.num 7),
        ("another", JsonValue.null)])) (fun _ => none) true
      = .ok ⟨"svc", "prod", true, "db"⟩ :=
  extra_keys_ignored_C7 [("app_name", JsonValue.str "svc"),
      ("environment", JsonValue.str "prod"), ("debug", JsonValue.bool true),
      ("db_url", JsonValue.str "db"), ("extra_key", JsonValue.num 7),
      ("another", JsonValue.null)] (fun _ => none) true
    "svc" "prod" "db" true rfl rfl rfl rfl (fun _ _ => rfl)
